import Mathlib

/-!
Verification of `json_md.py`: a shallow embedding of the script's data model
(JSON-like documents), its extractor (`proc_task` lines 77-123), its renderers
(`create_md_file`, `create_meta_file`) and its orchestrator (`proc_task`),
together with theorems settling the specification's claims about them.
-/

set_option maxRecDepth 4096

/-- A JSON-like value, the input document shape consumed by the script
(objects are ordered key/value lists, as Python 3.7+ dicts preserve
insertion order). -/
inductive JVal where
  | null : JVal
  | bool : Bool → JVal
  | num : Int → JVal
  | str : String → JVal
  | arr : List JVal → JVal
  | obj : List (String × JVal) → JVal

/-- Python subscript `v[k]` on a dict: `none` models a `KeyError`
(key absent) or a `TypeError` (subscripting a non-dict with a string key). -/
def lookup (v : JVal) (k : String) : Option JVal :=
  match v with
  | .obj kvs => List.lookup k kvs
  | _ => none

/-- Python truthiness of a JSON-like value (`if fields[...]:`). -/
def pyTruthy : JVal → Bool
  | .null => false
  | .bool b => b
  | .num n => n ≠ 0
  | .str s => !s.isEmpty
  | .arr xs => !xs.isEmpty
  | .obj kvs => !kvs.isEmpty

/-- Python `len(v)`; `none` models the `TypeError` on unsized values. -/
def pyLen : JVal → Option Nat
  | .str s => some s.length
  | .arr xs => some xs.length
  | .obj kvs => some kvs.length
  | _ => none

/-- Python subscript `v[i]` with a non-negative integer index; `none` models
`IndexError`/`TypeError`/`KeyError`. -/
def pyIndex (v : JVal) (i : Nat) : Option JVal :=
  match v with
  | .arr xs => xs.get? i
  | .str s => (s.data.get? i).map (fun c => .str (String.mk [c]))
  | _ => none

/-- Requires a text value: `none` models the `AttributeError`/`TypeError`
raised by string methods applied to a non-string. -/
def asStr : JVal → Option String
  | .str s => some s
  | _ => none

/-- The sequence-of-strings view of a value used by `', '.join(...)`:
a list of strings, or a string (joined character by character); anything
else, or a non-string element, models the `TypeError` raised by `str.join`. -/
def asStrList : JVal → Option (List String)
  | .arr xs => xs.mapM asStr
  | .str s => some (s.data.map (fun c => String.mk [c]))
  | _ => none

/-- Characters at which Python `str.splitlines` breaks a line. -/
def isLineBreak (c : Char) : Bool :=
  c = '\n' ∨ c = '\r' ∨ c = '\x0b' ∨ c = '\x0c' ∨
  c = '\x1c' ∨ c = '\x1d' ∨ c = '\x1e' ∨ c = '\x85' ∨
  c = ' ' ∨ c = ' '

/-- Worker for `str.splitlines`: `cur` is the (reversed) current line. -/
def splitlinesGo (cur : List Char) : List Char → List (List Char)
  | [] => [cur.reverse]
  | '\r' :: '\n' :: rest =>
      cur.reverse :: (if rest.isEmpty then [] else splitlinesGo [] rest)
  | c :: rest =>
      if isLineBreak c then
        cur.reverse :: (if rest.isEmpty then [] else splitlinesGo [] rest)
      else splitlinesGo (c :: cur) rest

/-- Python `s.splitlines()` (no `keepends`). -/
def pySplitlines (s : String) : List String :=
  if s.data.isEmpty then [] else (splitlinesGo [] s.data).map String.mk

/-- Characters Python `str.strip()` removes (the `str.isspace` set). -/
def pyIsSpace (c : Char) : Bool :=
  c = ' ' ∨ c = '\t' ∨ c = '\n' ∨ c = '\r' ∨ c = '\x0b' ∨ c = '\x0c' ∨
  c = '\x1c' ∨ c = '\x1d' ∨ c = '\x1e' ∨ c = '\x1f' ∨ c = '\x85' ∨
  c = '\xa0' ∨ c = ' ' ∨
  (0x2000 ≤ c.toNat ∧ c.toNat ≤ 0x200a) ∨
  c = ' ' ∨ c = ' ' ∨ c = ' ' ∨ c = ' ' ∨ c = '　'

/-- Python `s.strip()` with no arguments. -/
def pyStrip (s : String) : String :=
  String.mk (((s.data.dropWhile pyIsSpace).reverse.dropWhile pyIsSpace).reverse)

/-- `' '.join(line for line in s.splitlines() if line.strip())`
(line 87 of `json_md.py`). -/
def descJoin (s : String) : String :=
  String.intercalate " " ((pySplitlines s).filter (fun line => pyStrip line ≠ ""))

/-- Python `repr` of a string: quote choice and character escapes
(approximating `repr`'s escaping of non-printable characters by escaping
exactly the ASCII control characters). -/
def reprStrChars (s : String) : List Char :=
  let q : Char := if s.data.contains '\'' ∧ ¬ s.data.contains '"' then '"' else '\''
  let esc : Char → List Char := fun c =>
    if c = '\\' then ['\\', '\\']
    else if c = q then ['\\', q]
    else if c = '\n' then ['\\', 'n']
    else if c = '\r' then ['\\', 'r']
    else if c = '\t' then ['\\', 't']
    else if c.toNat < 32 ∨ c.toNat = 127 then
      ['\\', 'x',
       (Nat.digitChar (c.toNat / 16)),
       (Nat.digitChar (c.toNat % 16))]
    else [c]
  q :: (s.data.foldr (fun c acc => esc c ++ acc) [q])

mutual
/-- Python `repr` of a JSON-like value (used for elements inside
`str` of a list/dict). -/
def pyRepr : JVal → String
  | .null => "None"
  | .bool b => if b then "True" else "False"
  | .num n => toString n
  | .str s => String.mk (reprStrChars s)
  | .arr xs => "[" ++ pyReprList xs ++ "]"
  | .obj kvs => String.mk ('\x7b' :: (pyReprPairs kvs).data ++ ['\x7d'])

/-- Comma-separated `repr`s of list elements. -/
def pyReprList : List JVal → String
  | [] => ""
  | [x] => pyRepr x
  | x :: xs => pyRepr x ++ ", " ++ pyReprList xs

/-- Comma-separated `repr`s of dict items. -/
def pyReprPairs : List (String × JVal) → String
  | [] => ""
  | [(k, v)] => String.mk (reprStrChars k) ++ ": " ++ pyRepr v
  | (k, v) :: kvs => String.mk (reprStrChars k) ++ ": " ++ pyRepr v ++ ", " ++ pyReprPairs kvs
end

/-- Python `str(v)` as applied by `str.format` to interpolated values. -/
def pyStr : JVal → String
  | .str s => s
  | v => pyRepr v

/-! ## Renderer: `create_md_file` (lines 4-42) -/

/-- The flat mapping `md_dict` built at lines 96-105 (all values are the
text that `str.format` interpolates into the report template). -/
structure MdDict where
  summary : String
  description : String
  status : String
  updated : String
  issuetype : String
  labels : String
  marketAffectedFieldName : String
  acceptanceCriteriaFieldName : String

/-- One attachment mapping from line 109. -/
structure AttachRec where
  file_id : String
  file_name : String
  created : String
  size : String
  url : String

/-- One sub-task mapping from lines 117-123. -/
structure SubRec where
  summary : String
  key : String
  url : String

/-- `main_task_template.format(**md_dict)` (lines 5-20, 33). -/
def mainTaskBlock (md : MdDict) : String :=
  "# Summary\n" ++ md.summary ++
  "\n## Description\n" ++ md.description ++
  "\n## Task Info\n* Status: " ++ md.status ++
  "\n* Updated: " ++ md.updated ++
  "\n* Issuetype: " ++ md.issuetype ++
  "\n## Labels\n" ++ md.labels ++
  "\n## Market Affected Field Name\n" ++ md.marketAffectedFieldName ++
  "\n## Acceptance Criteria Field Name\n" ++ md.acceptanceCriteriaFieldName ++
  "\n---\n"

/-- `attachment_template.format(**attach)` (lines 21-27, 37). -/
def attachmentBlock (a : AttachRec) : String :=
  a.file_name ++
  "\n* ID: " ++ a.file_id ++
  "\n* Created: " ++ a.created ++
  "\n* File Size: " ++ a.size ++
  "\n* Download URL: " ++ a.url ++
  "\n---\n"

/-- `sub_tasks_template.format(**sub_task)` (lines 28-32, 41). -/
def subTaskBlock (st : SubRec) : String :=
  st.summary ++
  "\n* Key: " ++ st.key ++
  "\n* URL: " ++ st.url ++
  "\n---\n"

/-- `create_md_file` (lines 4-42): the main block, then an `## Attachment`
section only when `attach_list` is non-empty, then a `## Sub Tasks` section
only when `sub_task_list` is non-empty. -/
def create_md_file (md_dict : MdDict) (attach_list : List AttachRec)
    (sub_task_list : List SubRec) : String :=
  mainTaskBlock md_dict ++
  (if attach_list.isEmpty then "" else
    "## Attachment\n" ++ String.join (attach_list.map attachmentBlock)) ++
  (if sub_task_list.isEmpty then "" else
    "## Sub Tasks\n" ++ String.join (sub_task_list.map subTaskBlock))

/-! ## Renderer: `create_meta_file` (lines 44-72), i.e.
`json.dumps(meta_content, ensure_ascii=False)` -/

/-- The hexadecimal digit Python's `'\u%04x'` formatting uses (lowercase). -/
def hexDig (n : Nat) : Char :=
  if n < 10 then Char.ofNat (48 + n) else Char.ofNat (87 + n)

/-- `json.dumps` escaping of one character with `ensure_ascii=False`
(CPython `py_encode_basestring`): backslash, double quote and the named
control characters get two-character escapes, the remaining characters
below `0x20` get `\u00XX`, and every other character - in particular
every non-ASCII character - is emitted unchanged. -/
def escChar (c : Char) : List Char :=
  if c = '"' then ['\\', '"']
  else if c = '\\' then ['\\', '\\']
  else if c = '\x08' then ['\\', 'b']
  else if c = '\x0c' then ['\\', 'f']
  else if c = '\n' then ['\\', 'n']
  else if c = '\r' then ['\\', 'r']
  else if c = '\t' then ['\\', 't']
  else if c.toNat < 32 then
    ['\\', 'u', '0', '0', hexDig (c.toNat / 16), hexDig (c.toNat % 16)]
  else [c]

/-- `json.dumps` escaping of a whole string (character by character). -/
def escapeChars : List Char → List Char
  | [] => []
  | c :: cs => escChar c ++ escapeChars cs

/-- The serialized form of one JSON string, quotes included. -/
def dumpStrChars (s : String) : List Char :=
  '"' :: escapeChars s.data ++ ['"']

/-- The serialized form of one (flat) JSON value. -/
def dumpVal : JVal → List Char
  | .null => ['n', 'u', 'l', 'l']
  | .bool b => if b then ['t', 'r', 'u', 'e'] else ['f', 'a', 'l', 's', 'e']
  | .num n => (toString n).data
  | .str s => dumpStrChars s
  | .arr _ => []
  | .obj _ => []

/-- One `"key": value` item (the default `': '` key separator). -/
def dumpPair (p : String × JVal) : List Char :=
  dumpStrChars p.1 ++ ':' :: ' ' :: dumpVal p.2

/-- The remaining items, each preceded by the default `', '` separator. -/
def dumpRest : List (String × JVal) → List Char
  | [] => []
  | p :: ps => ',' :: ' ' :: dumpPair p ++ dumpRest ps

/-- `json.dumps` of a flat object with `ensure_ascii=False` and default
separators. -/
def dumpsObjChars (kvs : List (String × JVal)) : List Char :=
  '\x7b' :: (match kvs with
             | [] => []
             | p :: ps => dumpPair p ++ dumpRest ps) ++ ['\x7d']

/-- `create_meta_file` (lines 44-72): builds the fixed twelve-key mapping
in declaration order and serializes it with
`json.dumps(..., ensure_ascii=False)`. The twelve parameters are listed
positionally in the source's order; their Python defaults are
`level=0`, `attachment_type="file"` and `None` for the rest
(see `create_meta_file_defaults`). -/
def create_meta_file (level title file_name file_record_id
    file_original_name file_original_path source value_stream categories
    parent_file_name attachment_type owner : JVal) : String :=
  String.mk (dumpsObjChars
    [("level", level),
     ("title", title),
     ("file_name", file_name),
     ("file_record_id", file_record_id),
     ("file_original_name", file_original_name),
     ("file_original_path", file_original_path),
     ("source", source),
     ("value_stream", value_stream),
     ("categories", categories),
     ("parent_file_name", parent_file_name),
     ("attachment_type", attachment_type),
     ("owner", owner)])

/-- `create_meta_file()` called with no arguments: every parameter takes
its default from the Python signature (lines 44-57): `level=0`,
`attachment_type="file"`, and `None` for the other ten. -/
def create_meta_file_defaults : String :=
  create_meta_file (.num 0) .null .null .null .null .null .null .null .null
    .null (.str "file") .null

/-! ## A JSON decoder for flat objects (to state the round-trip claims) -/

/-- Skip JSON insignificant whitespace. -/
def skipWs : List Char → List Char
  | c :: cs => if c = ' ' ∨ c = '\t' ∨ c = '\n' ∨ c = '\r' then skipWs cs else c :: cs
  | [] => []

/-- Value of one hexadecimal digit character. -/
def hexVal (c : Char) : Option Nat :=
  if '0' ≤ c ∧ c ≤ '9' then some (c.toNat - 48)
  else if 'a' ≤ c ∧ c ≤ 'f' then some (c.toNat - 87)
  else if 'A' ≤ c ∧ c ≤ 'F' then some (c.toNat - 55)
  else none

/-- Value of a four-hex-digit `\uXXXX` escape. -/
def hex4 (h1 h2 h3 h4 : Char) : Option Nat := do
  let d1 ← hexVal h1
  let d2 ← hexVal h2
  let d3 ← hexVal h3
  let d4 ← hexVal h4
  some (d1 * 4096 + d2 * 256 + d3 * 16 + d4)

/-- The character named by a one-character JSON escape. -/
def unescChar (c : Char) : Option Char :=
  if c = '"' then some '"'
  else if c = '\\' then some '\\'
  else if c = '/' then some '/'
  else if c = 'b' then some '\x08'
  else if c = 'f' then some '\x0c'
  else if c = 'n' then some '\n'
  else if c = 'r' then some '\r'
  else if c = 't' then some '\t'
  else none

/-- Parse the body of a JSON string up to and over its closing quote,
undoing escapes; returns the string's characters and the remaining input. -/
def parseStrBody : List Char → Option (List Char × List Char)
  | [] => none
  | '"' :: cs => some ([], cs)
  | '\\' :: 'u' :: h1 :: h2 :: h3 :: h4 :: cs => do
      let n ← hex4 h1 h2 h3 h4
      let p ← parseStrBody cs
      some (Char.ofNat n :: p.1, p.2)
  | '\\' :: e :: cs => do
      let d ← unescChar e
      let p ← parseStrBody cs
      some (d :: p.1, p.2)
  | c :: cs => do
      let p ← parseStrBody cs
      some (c :: p.1, p.2)

/-- Parse one JSON string literal, opening quote included. -/
def parseJStr : List Char → Option (String × List Char)
  | '"' :: cs => (parseStrBody cs).map (fun p => (String.mk p.1, p.2))
  | _ => none

/-- Greedily parse a run of decimal digits onto an accumulator. -/
def parseNatAux (acc : Nat) : List Char → Nat × List Char
  | c :: cs =>
      if '0' ≤ c ∧ c ≤ '9' then parseNatAux (10 * acc + (c.toNat - 48)) cs
      else (acc, c :: cs)
  | [] => (acc, [])

/-- Parse one atomic JSON value (string, null, boolean or integer). -/
def parseAtom : List Char → Option (JVal × List Char)
  | '"' :: cs => (parseStrBody cs).map (fun p => (.str (String.mk p.1), p.2))
  | 'n' :: 'u' :: 'l' :: 'l' :: cs => some (.null, cs)
  | 't' :: 'r' :: 'u' :: 'e' :: cs => some (.bool true, cs)
  | 'f' :: 'a' :: 'l' :: 's' :: 'e' :: cs => some (.bool false, cs)
  | '-' :: c :: cs =>
      if '0' ≤ c ∧ c ≤ '9' then
        let p := parseNatAux (c.toNat - 48) cs
        some (.num (-(p.1 : Int)), p.2)
      else none
  | c :: cs =>
      if '0' ≤ c ∧ c ≤ '9' then
        let p := parseNatAux (c.toNat - 48) cs
        some (.num (p.1 : Int), p.2)
      else none
  | [] => none

/-- Parse the members of a non-empty flat JSON object, the opening brace
already consumed; `fuel` bounds the number of members. -/
def parseMembers : Nat → List Char → Option (List (String × JVal) × List Char)
  | 0, _ => none
  | fuel + 1, cs => do
    let (k, cs1) ← parseJStr (skipWs cs)
    let cs2 := skipWs cs1
    match cs2 with
    | ':' :: cs3 => do
      let (v, cs4) ← parseAtom (skipWs cs3)
      match skipWs cs4 with
      | '\x7d' :: cs5 => some ([(k, v)], cs5)
      | ',' :: cs5 => do
          let (ps, cs6) ← parseMembers fuel cs5
          some ((k, v) :: ps, cs6)
      | _ => none
    | _ => none

/-- Decode a flat JSON object (all values atomic) back into an ordered
key/value mapping; `none` on any input that is not such an object. -/
def decodeFlatChars (cs : List Char) : Option (List (String × JVal)) :=
  match skipWs cs with
  | '\x7b' :: cs1 =>
    match skipWs cs1 with
    | '\x7d' :: cs2 => if (skipWs cs2).isEmpty then some [] else none
    | cs2 => do
        let (ps, rest) ← parseMembers (cs2.length + 1) cs2
        if (skipWs rest).isEmpty then some ps else none
  | _ => none

/-- Decode the textual encoding produced by `create_meta_file` back into
a flat mapping. -/
def decodeFlat (s : String) : Option (List (String × JVal)) :=
  decodeFlatChars s.data

/-! ## Extractor (`proc_task` lines 77-123 and 135) -/

/-- Lines 77-80: select the main task record - `json_result['issues'][0]`
when `is_main_task`, else the record itself. -/
def mainOf (json_result : JVal) (is_main_task : Bool) : Option JVal :=
  if is_main_task then do
    let issues ← lookup json_result "issues"
    pyIndex issues 0
  else some json_result

/-- Lines 88-91: the `acceptanceCriteriaFieldName` derivation -
`'\n'.join(line for line in fields['customfield_27708'].splitlines() if line.strip())`
when the field's value is truthy, `''` otherwise. Note that the subscript
itself raises `KeyError` when the key is absent. -/
def acfnOf (fields : JVal) : Option String := do
  let v ← lookup fields "customfield_27708"
  if pyTruthy v then do
    let s ← asStr v
    some (String.intercalate "\n" ((pySplitlines s).filter (fun line => pyStrip line ≠ "")))
  else some ""

/-- Lines 92-95: the `marketAffectedFieldName` derivation -
`fields['customfield_26615'][0]['value']` when the field's value is truthy,
`''` otherwise. -/
def mafnOf (fields : JVal) : Option String := do
  let v ← lookup fields "customfield_26615"
  if pyTruthy v then do
    let first ← pyIndex v 0
    let value ← lookup first "value"
    some (pyStr value)
  else some ""

/-- Line 109: one attachment mapping
`{'file_id': info['id'], 'file_name': info['filename'], 'created': info['created'],
'size': info['size'], 'url': info['content']}` (values as the text `str.format`
later interpolates). -/
def attachEntry (info : JVal) : Option AttachRec := do
  let i ← lookup info "id"
  let fn ← lookup info "filename"
  let cr ← lookup info "created"
  let sz ← lookup info "size"
  let u ← lookup info "content"
  some ⟨pyStr i, pyStr fn, pyStr cr, pyStr sz, pyStr u⟩

/-- Lines 107-111: the attachment list - a comprehension over
`fields['attachment']` when truthy, `[]` otherwise. -/
def attachOf (fields : JVal) : Option (List AttachRec) := do
  let a ← lookup fields "attachment"
  if pyTruthy a then
    match a with
    | .arr infos => infos.mapM attachEntry
    | _ => none
  else some []

/-- Lines 117-123: one sub-task mapping
`{'summary': sub_task['fields']['summary'], 'key': sub_task['key'],
'url': sub_task['self']}`. -/
def subEntry (sub_task : JVal) : Option SubRec := do
  let f ← lookup sub_task "fields"
  let su ← lookup f "summary"
  let ky ← lookup sub_task "key"
  let se ← lookup sub_task "self"
  some ⟨pyStr su, pyStr ky, pyStr se⟩

/-- Lines 113-123: the sub-task list. Note that line 115 subscripts
`json_result['issues']` unconditionally (also when `is_main_task` is
false), so a document without an `issues` key fails here. -/
def subStage (json_result : JVal) : Option (List SubRec) := do
  let issues ← lookup json_result "issues"
  let n ← pyLen issues
  if n > 1 then
    match issues with
    | .arr xs => (xs.drop 1).mapM subEntry
    | _ => none
  else some []

/-- The result of the extraction part of `proc_task`: the flat mapping,
the two lists, the original key (line 82, returned verbatim) and the main
task's self URL (used at line 135). -/
structure ExtractRes where
  md_dict : MdDict
  attach_list : List AttachRec
  sub_task_list : List SubRec
  file_name : JVal
  self_url : String

/-- Lines 85-105: the flat mapping `md_dict`, derived from `fields` in the
source's evaluation order - the labels join (line 86), the description join
(line 87), the two optional custom fields (lines 88-95), then the remaining
subscripts inside the dict literal (lines 96-105). -/
def mdOf (fields : JVal) : Option MdDict := do
  let labelsV ← lookup fields "labels"
  let labelsL ← asStrList labelsV
  let descV ← lookup fields "description"
  let descS ← asStr descV
  let acfn ← acfnOf fields
  let mafn ← mafnOf fields
  let summary ← lookup fields "summary"
  let statusV ← lookup fields "status"
  let statusName ← lookup statusV "name"
  let updated ← lookup fields "updated"
  let issuetypeV ← lookup fields "issuetype"
  let issuetypeName ← lookup issuetypeV "name"
  some ⟨pyStr summary, descJoin descS, pyStr statusName, pyStr updated,
        pyStr issuetypeName, String.intercalate ", " labelsL, mafn, acfn⟩

/-- The extraction performed by `proc_task` (lines 77-123 plus the
`main_task['self']` read of line 135): every field access models the
corresponding Python subscript, and absent keys or ill-typed values
make the whole extraction fail, exactly as the uncaught Python exception
would. -/
def extract (json_result : JVal) (is_main_task : Bool) : Option ExtractRes := do
  let main_task ← mainOf json_result is_main_task
  let fields ← lookup main_task "fields"
  let file_name ← lookup main_task "key"
  let md_dict ← mdOf fields
  let attach_list ← attachOf fields
  let sub_task_list ← subStage json_result
  let selfV ← lookup main_task "self"
  let self_url ← asStr selfV
  some ⟨md_dict, attach_list, sub_task_list, file_name, self_url⟩

/-! ## Orchestrator (`proc_task` lines 74-143) -/

/-- The `uuid.uuid4()` result: a `UUID` *object* (not text); `hex` is its
canonical textual form, which the object itself is not. -/
structure UuidVal where
  hex : String

/-- Line 76, `record_id + '.md'`: Python's `+` between a `UUID` object and
a `str` - `uuid.UUID` defines no `__add__` and `str` no `__radd__`, so this
raises `TypeError` for every `UUID` value, which `none` models. -/
def uuidAddStr (_ : UuidVal) (_ : String) : Option String := none

/-- Line 133, `file_record_id=record_id` followed by `json.dumps`:
`json.dumps` raises `TypeError` on a `UUID` object (it is not JSON
serializable), which `none` models. -/
def uuidJson (_ : UuidVal) : Option JVal := none

/-- `proc_task` (lines 74-143), faithful to the source: the freshly
generated identifier is passed in as the `UUID` object `uuid4()` returns,
and line 76 concatenates that object with the text `'.md'`. -/
def proc_task (record_id : UuidVal) (json_result : JVal)
    (is_main_task : Bool) : Option (String × String × JVal) := do
  let md_file_name ← uuidAddStr record_id ".md"
  let e ← extract json_result is_main_task
  let main_md_content := create_md_file e.md_dict e.attach_list e.sub_task_list
  let rid ← uuidJson record_id
  let main_meta_content := create_meta_file (.num 0) (.str e.md_dict.summary)
    (.str md_file_name) rid (.str e.md_dict.summary)
    (.str (e.self_url ++ "/" ++ md_file_name)) (.str "jira-iwpb") (.str "")
    (.str "") .null (.str "file") (.str "")
  some (main_md_content, main_meta_content, e.file_name)

/-- Line 76: the destination filename derived from the record identifier,
`record_id + '.md'`. -/
def md_file_name_of (record_id : String) : String :=
  record_id ++ ".md"

/-- `proc_task` under the specification's prescribed resolution of the
identifier ambiguity (spec section 9: "treat as string form"): the record
identifier enters as its canonical text, so line 76 is string
concatenation and line 133 serializes text. Everything else is as in
`proc_task`. -/
def proc_task_str (record_id : String) (json_result : JVal)
    (is_main_task : Bool) : Option (String × String × JVal) :=
  let md_file_name := md_file_name_of record_id
  (extract json_result is_main_task).map (fun e =>
    (create_md_file e.md_dict e.attach_list e.sub_task_list,
     create_meta_file (.num 0) (.str e.md_dict.summary) (.str md_file_name)
       (.str record_id) (.str e.md_dict.summary)
       (.str (e.self_url ++ "/" ++ md_file_name)) (.str "jira-iwpb")
       (.str "") (.str "") .null (.str "file") (.str ""),
     e.file_name))

/-! ## Concrete documents used as test inputs -/

/-- A well-formed `fields` record with every required field and both
optional custom fields populated. -/
def sampleFields : JVal := .obj
  [("summary", .str "Main summary"),
   ("description", .str "line1\n\nline2\n "),
   ("status", .obj [("name", .str "Open")]),
   ("updated", .str "2024-05-06T07:08:09"),
   ("issuetype", .obj [("name", .str "Story")]),
   ("labels", .arr [.str "a", .str "b"]),
   ("customfield_27708", .str "given x\n\nthen y"),
   ("customfield_26615", .arr [.obj [("value", .str "HK")]]),
   ("attachment", .arr
     [.obj [("id", .str "1"), ("filename", .str "f.png"),
            ("created", .str "2024-01-01"), ("size", .num 100),
            ("content", .str "http://x")]])]

/-- A well-formed main issue record. -/
def sampleMain : JVal := .obj
  [("fields", sampleFields),
   ("key", .str "JIRA-1"),
   ("self", .str "http://jira/rest/api/2/issue/1")]

/-- A well-formed sub-task issue record. -/
def sampleSub : JVal := .obj
  [("fields", .obj [("summary", .str "Sub summary")]),
   ("key", .str "JIRA-2"),
   ("self", .str "http://jira/rest/api/2/issue/2")]

/-- A well-formed root document with one main issue and one sub-task. -/
def sampleDoc : JVal := .obj [("issues", .arr [sampleMain, sampleSub])]

example : (extract sampleDoc true).isSome = true := rfl
example : (extract sampleDoc true).map (fun e => e.md_dict.description) = some "line1 line2" := rfl
example : (extract sampleDoc true).map (fun e => e.md_dict.labels) = some "a, b" := rfl
example : (extract sampleDoc true).map (fun e => e.md_dict.acceptanceCriteriaFieldName) = some "given x\nthen y" := rfl
example : (extract sampleDoc true).map (fun e => e.md_dict.marketAffectedFieldName) = some "HK" := rfl
example : (extract sampleDoc true).map (fun e => e.sub_task_list) = some [⟨"Sub summary", "JIRA-2", "http://jira/rest/api/2/issue/2"⟩] := rfl
example : (extract sampleMain false) = none := rfl
example : decodeFlat create_meta_file_defaults =
  some [("level", .num 0), ("title", .null), ("file_name", .null),
        ("file_record_id", .null), ("file_original_name", .null),
        ("file_original_path", .null), ("source", .null),
        ("value_stream", .null), ("categories", .null),
        ("parent_file_name", .null), ("attachment_type", .str "file"),
        ("owner", .null)] := rfl

/-! ## Claim theorems -/

/-- C10: `create_meta_file` called with no arguments (every parameter at
its Python default) returns the textual encoding of a mapping with exactly
the twelve fixed keys, in which `level` is `0`, `attachment_type` is
`"file"`, and the other ten values are the absent/null value. -/
theorem C10_create_meta_file_defaults :
    decodeFlat create_meta_file_defaults =
      some [("level", .num 0), ("title", .null), ("file_name", .null),
            ("file_record_id", .null), ("file_original_name", .null),
            ("file_original_path", .null), ("source", .null),
            ("value_stream", .null), ("categories", .null),
            ("parent_file_name", .null), ("attachment_type", .str "file"),
            ("owner", .null)] := rfl

/-- C1: on a well-formed input document (the extraction itself succeeds),
`proc_task` nevertheless returns no triple: line 76 adds the `UUID` object
`uuid4()` returns to the text `'.md'`, which raises `TypeError`, so the
orchestrator raises on every input instead of returning the rendered
report, the rendered metadata and the task key. -/
theorem C1_proc_task_raises_on_wellformed_input :
    (extract sampleDoc true).isSome = true ∧
    proc_task ⟨"0123456789abcdef0123456789abcdef"⟩ sampleDoc true = none :=
  ⟨rfl, rfl⟩

/-- C2: in the alternate entry point (`is_main_task = False` on a single
well-formed issue record with `fields`, `key` and `self` but no `issues`
attribute), `proc_task` does not return normally: the flat field mapping
for the issue is derivable (`mdOf` succeeds), but line 115 subscripts
`json_result['issues']` unconditionally, raising `KeyError`, so the
sub-task stage and with it the whole extraction and orchestrator fail. -/
theorem C2_alternate_entry_raises :
    (mdOf sampleFields).isSome = true ∧
    subStage sampleMain = none ∧
    extract sampleMain false = none ∧
    proc_task_str "0123456789abcdef0123456789abcdef" sampleMain false = none :=
  ⟨rfl, rfl, rfl, rfl⟩

/-! ## Round-trip lemmas for the metadata encoding -/

/-- An atomic metadata parameter value: absent (`None`) or text. -/
def atomOk (v : JVal) : Prop := v = .null ∨ ∃ s, v = .str s

lemma hexVal_hexDig (n : Nat) (h : n < 16) : hexVal (hexDig n) = some n := by
  interval_cases n <;> rfl

lemma parseStrBody_cons_plain (c : Char) (cs : List Char)
    (h1 : c ≠ '"') (h2 : c ≠ '\\') :
    parseStrBody (c :: cs) =
      (parseStrBody cs).bind (fun p => some (c :: p.1, p.2)) := by
  conv_lhs => rw [parseStrBody.eq_def]
  split
  · simp_all
  · simp_all
  · simp_all
  · simp_all
  · rename_i h
    rcases h with ⟨rfl, rfl⟩  -- placeholder, adjusted below
    rfl

lemma parseStrBody_escape (s rest : List Char) :
    parseStrBody (escapeChars s ++ '"' :: rest) = some (s, rest) := by
  induction s with
  | nil => rfl
  | cons c s ih =>
    have hassoc : escapeChars (c :: s) ++ '"' :: rest
        = escChar c ++ (escapeChars s ++ '"' :: rest) := by
      simp [escapeChars]
    rw [hassoc]
    by_cases h1 : c = '"'
    · subst h1; simp [escChar, parseStrBody, unescChar, ih]
    by_cases h2 : c = '\\'
    · subst h2; simp [escChar, parseStrBody, unescChar, ih]
    by_cases h3 : c = '\x08'
    · subst h3; simp [escChar, parseStrBody, unescChar, ih]
    by_cases h4 : c = '\x0c'
    · subst h4; simp [escChar, parseStrBody, unescChar, ih]
    by_cases h5 : c = '\n'
    · subst h5; simp [escChar, parseStrBody, unescChar, ih]
    by_cases h6 : c = '\r'
    · subst h6; simp [escChar, parseStrBody, unescChar, ih]
    by_cases h7 : c = '\t'
    · subst h7; simp [escChar, parseStrBody, unescChar, ih]
    by_cases h8 : c.toNat < 32
    · have ha : c.toNat / 16 < 16 := by omega
      have hb : c.toNat % 16 < 16 := by omega
      have h0 : hexVal '0' = some 0 := rfl
      have hmod : c.toNat / 16 * 16 + c.toNat % 16 = c.toNat := by omega
      simp only [escChar, h1, h2, h3, h4, h5, h6, h7, h8, if_true, if_false,
        ite_true, ite_false, if_neg, List.cons_append, List.nil_append]
      simp [parseStrBody, hex4, h0, hexVal_hexDig _ ha, hexVal_hexDig _ hb, ih,
        hmod, Char.ofNat_toNat]
    · have hesc : escChar c = [c] := by
        simp [escChar, h1, h2, h3, h4, h5, h6, h7, h8]
      rw [hesc]
      simp [parseStrBody_cons_plain c _ h1 h2, ih]
